import Mathlib

/-
Shallow embedding of the white_rabbit text-to-speech subsystem:
  api/src/services/tts_service.py   (cache key, cache lookup, generation, eviction)
  api/src/services/tts_model.py     (model lifecycle manager)
  api/src/routers/tts.py            (create_tts endpoint)
  api/src/exceptions.py             (error taxonomy)

Machine integers are modelled as Nat with explicit reduction mod 2^32 where
the source relies on 32-bit arithmetic (inside SHA-256).  File contents are
lists of byte values, the cache directory is an association list from file
name to contents, and timestamps/sizes are Int.  The synthesis engine, the
event loop and the filesystem are external collaborators; their behaviour in
a single request is captured by explicit outcome parameters.
-/

/-! ## SHA-256 (hashlib.sha256(...).hexdigest() used by _generate_cache_key) -/

def M32 : Nat := 4294967296

def add32 (a b : Nat) : Nat := (a + b) % M32

def rotr32 (x n : Nat) : Nat := (x / 2 ^ n) + (x % 2 ^ n) * 2 ^ (32 - n)

def shr32 (x n : Nat) : Nat := x / 2 ^ n

def notw (x : Nat) : Nat := Nat.xor x (M32 - 1)

def chF (x y z : Nat) : Nat := Nat.xor (Nat.land x y) (Nat.land (notw x) z)

def majF (x y z : Nat) : Nat :=
  Nat.xor (Nat.xor (Nat.land x y) (Nat.land x z)) (Nat.land y z)

def bigSigma0 (x : Nat) : Nat := Nat.xor (Nat.xor (rotr32 x 2) (rotr32 x 13)) (rotr32 x 22)

def bigSigma1 (x : Nat) : Nat := Nat.xor (Nat.xor (rotr32 x 6) (rotr32 x 11)) (rotr32 x 25)

def smallSigma0 (x : Nat) : Nat := Nat.xor (Nat.xor (rotr32 x 7) (rotr32 x 18)) (shr32 x 3)

def smallSigma1 (x : Nat) : Nat := Nat.xor (Nat.xor (rotr32 x 17) (rotr32 x 19)) (shr32 x 10)

def K256 : List Nat :=
  [1116352408, 1899447441, 3049323471, 3921009573, 961987163,
   1508970993, 2453635748, 2870763221, 3624381080, 310598401,
   607225278, 1426881987, 1925078388, 2162078206, 2614888103,
   3248222580, 3835390401, 4022224774, 264347078, 604807628,
   770255983, 1249150122, 1555081692, 1996064986, 2554220882,
   2821834349, 2952996808, 3210313671, 3336571891, 3584528711,
   113926993, 338241895, 666307205, 773529912, 1294757372,
   1396182291, 1695183700, 1986661051, 2177026350, 2456956037,
   2730485921, 2820302411, 3259730800, 3345764771, 3516065817,
   3600352804, 4094571909, 275423344, 430227734, 506948616,
   659060556, 883997877, 958139571, 1322822218, 1537002063,
   1747873779, 1955562222, 2024104815, 2227730452, 2361852424,
   2428436474, 2756734187, 3204031479, 3329325298]

def H256 : List Nat :=
  [1779033703, 3144134277, 1013904242, 2773480762, 1359893119,
   2600822924, 528734635, 1541459225]

def toWords : List Nat → List Nat
  | a :: b :: c :: d :: rest => (((a * 256 + b) * 256 + c) * 256 + d) :: toWords rest
  | _ => []

def extendSchedule : List Nat → Nat → List Nat
  | ws, 0 => ws
  | ws, n + 1 =>
    let i := ws.length
    let w := add32 (add32 (smallSigma1 (ws.getD (i - 2) 0)) (ws.getD (i - 7) 0))
                   (add32 (smallSigma0 (ws.getD (i - 15) 0)) (ws.getD (i - 16) 0))
    extendSchedule (ws ++ [w]) n

def sha256Round (r : List Nat) (kw : Nat × Nat) : List Nat :=
  match r with
  | [a, b, c, d, e, f, g, h] =>
    let t1 := add32 h (add32 (bigSigma1 e) (add32 (chF e f g) (add32 kw.1 kw.2)))
    let t2 := add32 (bigSigma0 a) (majF a b c)
    [add32 t1 t2, a, b, c, add32 d t1, e, f, g]
  | _ => r

def compressBlock (h : List Nat) (block : List Nat) : List Nat :=
  let w := extendSchedule (toWords block) 48
  let r := (K256.zip w).foldl sha256Round h
  (h.zip r).map (fun p => add32 p.1 p.2)

def splitBlocksF : Nat → List Nat → List (List Nat)
  | 0, _ => []
  | _, [] => []
  | fuel + 1, x :: xs => (x :: xs.take 63) :: splitBlocksF fuel (xs.drop 63)

def splitBlocks (l : List Nat) : List (List Nat) := splitBlocksF l.length l

def lenBytes64 (n : Nat) : List Nat :=
  [n / 2 ^ 56 % 256, n / 2 ^ 48 % 256, n / 2 ^ 40 % 256, n / 2 ^ 32 % 256,
   n / 2 ^ 24 % 256, n / 2 ^ 16 % 256, n / 2 ^ 8 % 256, n % 256]

def padMessage (msg : List Nat) : List Nat :=
  let l := msg.length
  let k := (64 + 56 - (l + 1) % 64) % 64
  msg ++ [0x80] ++ List.replicate k 0 ++ lenBytes64 (8 * l)

def wordBytes (w : Nat) : List Nat :=
  [w / 2 ^ 24 % 256, w / 2 ^ 16 % 256, w / 2 ^ 8 % 256, w % 256]

def sha256 (msg : List Nat) : List Nat :=
  let hh := (splitBlocks (padMessage msg)).foldl compressBlock H256
  (hh.map wordBytes).flatten

def hexChar (n : Nat) : Char := if n < 10 then Char.ofNat (48 + n) else Char.ofNat (87 + n)

def byteHex (b : Nat) : List Char := [hexChar (b / 16), hexChar (b % 16)]

def hexDigest (bytes : List Nat) : String := String.mk ((bytes.map byteHex).flatten)

def utf8EncodeCodepoint (c : Nat) : List Nat :=
  if c < 0x80 then [c]
  else if c < 0x800 then [0xc0 + c / 64, 0x80 + c % 64]
  else if c < 0x10000 then [0xe0 + c / 4096, 0x80 + c / 64 % 64, 0x80 + c % 64]
  else [0xf0 + c / 262144, 0x80 + c / 4096 % 64, 0x80 + c / 64 % 64, 0x80 + c % 64]

def utf8Encode (s : String) : List Nat :=
  (s.data.map (fun c => utf8EncodeCodepoint c.toNat)).flatten

/-! ## Cache key (tts_service.py lines 121-133) -/

/-- Serialization the source hashes: cache_string = f"{text}:{voice_id}" (line 132). -/
def cacheString (text voice_id : String) : String := text ++ ":" ++ voice_id

/-- Model of _generate_cache_key (tts_service.py lines 121-133):
hashlib.sha256(cache_string.encode('utf-8')).hexdigest(). -/
def _generate_cache_key (text voice_id : String) : String :=
  hexDigest (sha256 (utf8Encode (cacheString text voice_id)))

/-! ## Filesystem model: the cache directory as an association list name ↦ bytes -/

abbrev Fs : Type := List (String × List Nat)

def fsLookup : Fs → String → Option (List Nat)
  | [], _ => none
  | (n, d) :: rest, p => if n = p then some d else fsLookup rest p

def fsErase : Fs → String → Fs
  | [], _ => []
  | (n, d) :: rest, p => if n = p then fsErase rest p else (n, d) :: fsErase rest p

def fsInsert (fs : Fs) (p : String) (d : List Nat) : Fs := (p, d) :: fsErase fs p

/-! ## TTS service data model (config.py, schemas/tts.py, exceptions.py) -/

/-- Fields of config.py Settings used by the TTS service.  static_audio_url
models settings.static_audio_url_prefix. -/
structure TTSSettings where
  tts_max_text_length : Nat
  tts_default_voice : String
  static_audio_url : String
deriving DecidableEq

/-- Error taxonomy (exceptions.py): TextTooLongError carries the two lengths
from which its message is built (lines 82-86); TTSGenerationError and
TTSModelNotReadyError carry their message. -/
inductive TTSError where
  | textTooLong (text_length max_length : Nat)
  | generationFailed (msg : String)
  | modelNotReady (msg : String)
deriving DecidableEq

/-- Message built by TextTooLongError.__init__ (exceptions.py lines 82-86). -/
def textTooLongMessage (text_length max_length : Nat) : String :=
  "Text length (" ++ toString text_length ++ ") exceeds maximum allowed length (" ++
    toString max_length ++ ")"

/-- Response schema (schemas/tts.py): audio_url and cached flag. -/
structure TTSResponse where
  audio_url : String
  cached : Bool
deriving DecidableEq

/-- Behaviour of the external pipeline/engine during one cache-miss request,
as observed by _generate_audio_sync (tts_service.py lines 157-227):
  chunks cs           - pipeline(text, voice) yields exactly the chunks cs
  engineRaise         - iterating the generator raises
  pipelineUnavailable - get_tts_pipeline raises before the engine runs
  writeFail           - sf.write raises after putting truncBytes on disk -/
inductive EngineOutcome where
  | chunks (cs : List (List Nat))
  | engineRaise (msg : String)
  | pipelineUnavailable (msg : String)
  | writeFail (truncBytes : List Nat) (msg : String)
deriving DecidableEq

/-- True exactly when the outcome makes the generation step fail (engine
failure, zero chunks, pipeline unavailable, or write failure). -/
def isEngineFailure : EngineOutcome → Bool
  | .chunks cs => cs.isEmpty
  | _ => true

/-! ## _generate_audio_sync and generate_tts_audio (tts_service.py 157-304) -/

/-- Model of _generate_audio_sync (tts_service.py lines 157-227): on success
the concatenated chunks are written by sf.write directly to cache_path (line
199, no temporary file); on failure the raised error is returned with the
filesystem as the source leaves it (unchanged, or holding a truncated file
when sf.write itself failed mid-write). -/
def _generate_audio_sync (outcome : EngineOutcome) (fs : Fs) (cache_path : String) :
    Fs × Option TTSError :=
  match outcome with
  | .pipelineUnavailable msg => (fs, some (.modelNotReady msg))
  | .engineRaise msg => (fs, some (.generationFailed ("Audio generation failed: " ++ msg)))
  | .chunks cs =>
    if cs.isEmpty then (fs, some (.generationFailed "No audio chunks generated"))
    else (fsInsert fs cache_path cs.flatten, none)
  | .writeFail truncBytes msg =>
    (fsInsert fs cache_path truncBytes, some (.generationFailed ("Audio generation failed: " ++ msg)))

/-- Voice resolution (tts_service.py lines 264-266): empty or "default" is
replaced by settings.tts_default_voice. -/
def resolveVoice (cfg : TTSSettings) (voice_id : String) : String :=
  if voice_id = "" ∨ voice_id = "default" then cfg.tts_default_voice else voice_id

/-- Cache entry file name for a key: f"{cache_key}.wav" (lines 147, 286). -/
def cacheFileName (cache_key : String) : String := cache_key ++ ".wav"

/-- URL returned for a cache entry file name:
f"{settings.static_audio_url_prefix}/{name}" (tts_service.py lines 282, 291). -/
def audioUrl (cfg : TTSSettings) (fname : String) : String :=
  cfg.static_audio_url ++ "/" ++ fname

/-- File name of the cache entry serving the request (text, voice_id), after
voice resolution: the key digest with the .wav extension. -/
def requestFileName (cfg : TTSSettings) (text voice_id : String) : String :=
  cacheFileName (_generate_cache_key text (resolveVoice cfg voice_id))

/-- Result of one generate_tts_audio call: final cache directory, number of
engine (pipeline) invocations performed, and the returned response or the
propagated error. -/
structure GenResult where
  fs : Fs
  engineInvocations : Nat
  out : Except TTSError TTSResponse

/-- Model of generate_tts_audio (tts_service.py lines 230-304): validate the
text length, resolve the voice, compute the cache key, look the entry up, on
a hit return the URL with cached=True, on a miss run _generate_audio_sync
and on any failure unlink the key's file before re-raising (lines 294-304). -/
def generate_tts_audio (cfg : TTSSettings) (outcome : EngineOutcome) (fs : Fs)
    (mystery_id text voice_id : String) : GenResult :=
  if text.length > cfg.tts_max_text_length then
    { fs := fs, engineInvocations := 0,
      out := .error (.textTooLong text.length cfg.tts_max_text_length) }
  else
    let fname := requestFileName cfg text voice_id
    match fsLookup fs fname with
    | some _ =>
      { fs := fs, engineInvocations := 0,
        out := .ok { audio_url := audioUrl cfg fname, cached := true } }
    | none =>
      let res := _generate_audio_sync outcome fs fname
      let inv : Nat := match outcome with
        | .pipelineUnavailable _ => 0
        | _ => 1
      match res.2 with
      | none =>
        { fs := res.1, engineInvocations := inv,
          out := .ok { audio_url := audioUrl cfg fname, cached := false } }
      | some e =>
        { fs := fsErase res.1 fname, engineInvocations := inv, out := .error e }

/-! ## Model lifecycle manager (tts_model.py, TTSModelManager) -/

/-- Mutable state of the singleton TTSModelManager (tts_model.py lines 31-35):
self._pipeline, self._initialization_error, self._is_loading.  The loaded
pipeline is opaque and modelled as a Nat handle. -/
structure MState where
  pipeline : Option Nat
  initialization_error : Option String
  is_loading : Bool
deriving DecidableEq

/-- Fresh manager state produced by TTSModelManager.__init__. -/
def initialMState : MState :=
  { pipeline := none, initialization_error := none, is_loading := false }

/-- Result of one underlying engine-load invocation (_load_pipeline_sync):
either a loaded pipeline handle or a raised error message. -/
inductive LoadOutcome where
  | success (p : Nat)
  | failure (e : String)
deriving DecidableEq

/-- Terminal outcome a get_pipeline caller observes. -/
inductive CallResult where
  | ready (p : Nat)
  | raisedGeneration (e : String)
  | raisedNotReady (msg : String)
deriving DecidableEq

/-- Outcome of the pre-lock section of get_pipeline (tts_model.py lines
84-99), evaluated against the manager state at call time: return the loaded
pipeline (line 85), raise TTSModelNotReadyError when lazy loading is
disabled (lines 89-92), raise TTSModelNotReadyError reporting the captured
error when a previous load failed (lines 95-99), otherwise continue to the
locked section.  None of the first three outcomes invokes the loader. -/
inductive PreOutcome where
  | ready (p : Nat)
  | notReadyLazyDisabled
  | notReadyFailed (e : String)
  | proceedToLock
deriving DecidableEq

def get_pipeline_pre (tts_lazy_load : Bool) (s : MState) : PreOutcome :=
  match s.pipeline with
  | some p => .ready p
  | none =>
    if !tts_lazy_load then .notReadyLazyDisabled
    else
      match s.initialization_error with
      | some e => .notReadyFailed e
      | none => .proceedToLock

/-- Locked section of get_pipeline (tts_model.py lines 102-134) run by one
caller holding the class lock.  loads k is the result of the k-th underlying
engine-load invocation (0-based); k is threaded through as the invocation
counter.  The is_loading wait branch (lines 107-118) is kept verbatim; it is
unreachable in the program because the loading caller holds the lock for the
whole load (the await at line 124 suspends without releasing it), so
is_loading is false whenever the lock is acquired.  On failure the error is
captured (line 130) and the exception propagates; the finally block resets
is_loading (line 134), which is why the state it leaves has
is_loading = false and pipeline = none. -/
def lockedSection (loads : Nat → LoadOutcome) (k : Nat) (s : MState) :
    MState × CallResult × Nat :=
  match s.pipeline with
  | some p => (s, .ready p, k)
  | none =>
    if s.is_loading then
      (s, .raisedNotReady "TTS model loading failed in another thread", k)
    else
      match loads k with
      | .success p => ({ s with pipeline := some p }, .ready p, k + 1)
      | .failure e => ({ s with initialization_error := some e }, .raisedGeneration e, k + 1)

/-- Sequential execution of the locked sections of n queued callers: the
asyncio lock admits them one at a time, each observing the state the
previous one left. -/
def runQueued (loads : Nat → LoadOutcome) : Nat → Nat → MState → MState × List CallResult × Nat
  | 0, k, s => (s, [], k)
  | n + 1, k, s =>
    let step := lockedSection loads k s
    let rest := runQueued loads n step.2.2 step.1
    (rest.1, step.2.1 :: rest.2.1, rest.2.2)

/-- Scenario of n concurrent first-time get_pipeline calls with lazy loading
enabled: every caller evaluates the pre-lock checks (lines 84-99) against
the fresh state — pipeline None, no captured error — and proceeds, then the
callers serialize on the class lock.  Returns the observed outcomes in lock
acquisition order and the total number of engine-load invocations. -/
def concurrentFirstCalls (loads : Nat → LoadOutcome) (n : Nat) : List CallResult × Nat :=
  let r := runQueued loads n 0 initialMState
  (r.2.1, r.2.2)

/-- Engine behaviour whose first load fails and whose later loads succeed. -/
def cexLoads : Nat → LoadOutcome :=
  fun k => if k = 0 then .failure "model load failed" else .success 7

/-! ## Evictor (tts_service.py lines 29-118, cleanup_old_cache_files) -/

/-- One cache entry as the evictor sees it: file name, st_mtime, st_size. -/
structure CacheFile where
  name : String
  mtime : Int
  size : Int
deriving DecidableEq

def mtimeLE (a b : CacheFile) : Prop := a.mtime ≤ b.mtime

instance : DecidableRel mtimeLE := fun a b => inferInstanceAs (Decidable (a.mtime ≤ b.mtime))

instance : IsTotal CacheFile mtimeLE := ⟨fun a b => Int.le_total a.mtime b.mtime⟩

instance : IsTrans CacheFile mtimeLE := ⟨fun _ _ _ => Int.le_trans⟩

/-- Model of get_cache_files_by_age (lines 29-46): all entries sorted by
modification time, oldest first (Python sorted is stable; so is insertion
sort). -/
def get_cache_files_by_age (files : List CacheFile) : List CacheFile :=
  List.insertionSort mtimeLE files

/-- Age pass of cleanup_old_cache_files (lines 92-100): remove every file
with current_time - mtime > ttl_seconds; the loop iterates over a copy and
deletes from the list, leaving exactly the files that fail the test. -/
def agePass (current_time ttl_seconds : Int) (files : List CacheFile) : List CacheFile :=
  files.filter (fun f => !decide (current_time - f.mtime > ttl_seconds))

/-- Model of get_cache_size_bytes (lines 49-65) applied to a file list. -/
def sumSizes (files : List CacheFile) : Int := (files.map (fun f => f.size)).sum

/-- Size pass of cleanup_old_cache_files (lines 102-113): while the running
size exceeds max_size_bytes and files remain, pop the oldest file, unlink
it, and subtract its size. -/
def sizePass (max_size_bytes : Int) : Int → List CacheFile → List CacheFile
  | _, [] => []
  | current_size, f :: rest =>
    if current_size > max_size_bytes then sizePass max_size_bytes (current_size - f.size) rest
    else f :: rest

/-- Model of cleanup_old_cache_files (lines 68-118) returning the surviving
entries: ttl_seconds = tts_cache_ttl_hours * 3600 and max_size_bytes =
tts_cache_max_size_mb * 1024 * 1024 (lines 85-86); the size pass starts from
get_cache_size_bytes recomputed over the directory, which after the age pass
holds exactly the age-surviving files. -/
def cleanup_old_cache_files (current_time ttl_hours max_size_mb : Int)
    (files : List CacheFile) : List CacheFile :=
  let sorted := get_cache_files_by_age files
  let kept := agePass current_time (ttl_hours * 3600) sorted
  sizePass (max_size_mb * 1024 * 1024) (sumSizes kept) kept

/-! ## Router endpoint (routers/tts.py lines 65-95, create_tts) -/

/-- Fields of config.py Settings used by the endpoint guard. -/
structure RouterSettings where
  tts_enabled : Bool
  audio_base_url : String
deriving DecidableEq

/-- Service-layer steps the endpoint body can perform after the guard. -/
inductive RouterAction where
  | cacheCleanup
  | generateAudio
deriving DecidableEq

structure RouterResult where
  out : Except TTSError TTSResponse
  actions : List RouterAction
  fs : Fs
  engineInvocations : Nat

/-- Model of create_tts (routers/tts.py lines 82-95): when tts_enabled is
false return audio_base_url/mystery_id.wav with cached=True immediately
(lines 83-86); otherwise run cleanup_old_cache_files and then
generate_tts_audio.  The cleanup acts on the directory metadata view
(cleanup_old_cache_files above) and is recorded here as an action. -/
def create_tts (rcfg : RouterSettings) (cfg : TTSSettings) (outcome : EngineOutcome)
    (fs : Fs) (mystery_id text voice_id : String) : RouterResult :=
  if !rcfg.tts_enabled then
    { out := .ok { audio_url := rcfg.audio_base_url ++ "/" ++ mystery_id ++ ".wav", cached := true },
      actions := [], fs := fs, engineInvocations := 0 }
  else
    let g := generate_tts_audio cfg outcome fs mystery_id text voice_id
    { out := g.out, actions := [.cacheCleanup, .generateAudio], fs := g.fs,
      engineInvocations := g.engineInvocations }

/-! ## Write discipline of the persistence step (for the atomicity claim) -/

/-- Primitive filesystem operations a write path can perform. -/
inductive FsOp where
  | writeFile (path : String) (data : List Nat)
  | renameFile (src dst : String)
  | unlinkFile (path : String)
deriving DecidableEq

/-- Trace of filesystem operations performed by the persistence step of
_generate_audio_sync (tts_service.py lines 199-203): a single sf.write
directly to str(cache_path) — no temporary file, no rename. -/
def audioSyncWriteTrace (cache_path : String) (bytes : List Nat) : List FsOp :=
  [FsOp.writeFile cache_path bytes]

def opWritesTo (finalPath : String) : FsOp → Bool
  | .writeFile p _ => decide (p = finalPath)
  | _ => false

def opRenamesTo (finalPath : String) : FsOp → Bool
  | .renameFile src dst => decide (dst = finalPath) && decide (src ≠ finalPath)
  | _ => false

/-- Modelled from the spec (the write-then-publish discipline the claim
asserts, absent from the source): every byte write targets a location other
than the final path, and the entry becomes visible at the final path only
through a rename from a temporary location. -/
def specAtomicPublish (trace : List FsOp) (finalPath : String) : Prop :=
  (∀ op ∈ trace, opWritesTo finalPath op = false) ∧
  (∃ op ∈ trace, opRenamesTo finalPath op = true)

instance (trace : List FsOp) (finalPath : String) :
    Decidable (specAtomicPublish trace finalPath) :=
  inferInstanceAs (Decidable (_ ∧ _))

/-- State of the cache directory when a direct write of data to path (the
sf.write call of line 199) is interrupted after k bytes: the truncated
content is visible at the final path, because the write targets cache_path
itself. -/
def writeInterrupted (fs : Fs) (path : String) (data : List Nat) (k : Nat) : Fs :=
  fsInsert fs path (data.take k)

/-! ## Concrete sample inputs used by the witnesses -/

def cfgW : TTSSettings :=
  { tts_max_text_length := 5000, tts_default_voice := "bm_fable",
    static_audio_url := "/static/audio" }

def cfgB : TTSSettings :=
  { tts_max_text_length := 2, tts_default_voice := "bm_fable",
    static_audio_url := "/static/audio" }

def rcfgW : RouterSettings :=
  { tts_enabled := false, audio_base_url := "https://cdn.example.org/audio" }

def fOldW : CacheFile := { name := "old.wav", mtime := 0, size := 10 }

def fEdgeW : CacheFile := { name := "edge.wav", mtime := 1, size := 10 }

/-! ## Helper lemmas about the filesystem model -/

theorem fsLookup_fsErase (fs : Fs) (p : String) : fsLookup (fsErase fs p) p = none := by
  induction fs with
  | nil => rfl
  | cons e rest ih =>
    obtain ⟨n, d⟩ := e
    by_cases h : n = p
    · simpa [fsErase, h] using ih
    · simp [fsErase, h, fsLookup, ih]

theorem fsLookup_fsInsert (fs : Fs) (p : String) (d : List Nat) :
    fsLookup (fsInsert fs p d) p = some d := by
  simp [fsInsert, fsLookup]

/-! ## Helper lemmas about generate_tts_audio -/

theorem generate_hit (cfg : TTSSettings) (outcome : EngineOutcome) (fs : Fs)
    (mystery_id text voice_id : String) (d : List Nat)
    (hlen : text.length ≤ cfg.tts_max_text_length)
    (hhit : fsLookup fs (requestFileName cfg text voice_id) = some d) :
    generate_tts_audio cfg outcome fs mystery_id text voice_id =
      { fs := fs, engineInvocations := 0,
        out := .ok { audio_url := audioUrl cfg (requestFileName cfg text voice_id),
                     cached := true } } := by
  have hnl : ¬ (text.length > cfg.tts_max_text_length) := by omega
  simp [generate_tts_audio, hnl, hhit]

theorem generate_miss_success (cfg : TTSSettings) (fs : Fs)
    (mystery_id text voice_id : String) (c : List Nat) (cs' : List (List Nat))
    (hlen : text.length ≤ cfg.tts_max_text_length)
    (hmiss : fsLookup fs (requestFileName cfg text voice_id) = none) :
    generate_tts_audio cfg (.chunks (c :: cs')) fs mystery_id text voice_id =
      { fs := fsInsert fs (requestFileName cfg text voice_id) ((c :: cs').flatten),
        engineInvocations := 1,
        out := .ok { audio_url := audioUrl cfg (requestFileName cfg text voice_id),
                     cached := false } } := by
  have hnl : ¬ (text.length > cfg.tts_max_text_length) := by omega
  simp [generate_tts_audio, hnl, hmiss, _generate_audio_sync]

/-! ## Claim theorems -/

/-- C1: for every (text, voice) pair with text within the length limit,
calling generate_tts_audio twice in succession with identical arguments,
starting from a cache with no entry for the pair's key, returns cached=false
on the first call and cached=true on the second, both calls resolve to the
same audio URL derived from the key's file name, and the second call
performs no engine invocation. -/
theorem C1_round_trip (cfg : TTSSettings) (fs : Fs) (mystery_id text voice_id : String)
    (cs : List (List Nat))
    (hlen : text.length ≤ cfg.tts_max_text_length)
    (hcs : cs ≠ [])
    (hmiss : fsLookup fs (requestFileName cfg text voice_id) = none) :
    (generate_tts_audio cfg (.chunks cs) fs mystery_id text voice_id).out =
      .ok { audio_url := audioUrl cfg (requestFileName cfg text voice_id), cached := false } ∧
    (generate_tts_audio cfg (.chunks cs)
        (generate_tts_audio cfg (.chunks cs) fs mystery_id text voice_id).fs
        mystery_id text voice_id).out =
      .ok { audio_url := audioUrl cfg (requestFileName cfg text voice_id), cached := true } ∧
    (generate_tts_audio cfg (.chunks cs)
        (generate_tts_audio cfg (.chunks cs) fs mystery_id text voice_id).fs
        mystery_id text voice_id).engineInvocations = 0 := by
  obtain ⟨c, cs', rfl⟩ := List.exists_cons_of_ne_nil hcs
  have h1 := generate_miss_success cfg fs mystery_id text voice_id c cs' hlen hmiss
  have h2 := generate_hit cfg (.chunks (c :: cs'))
    (fsInsert fs (requestFileName cfg text voice_id) ((c :: cs').flatten))
    mystery_id text voice_id ((c :: cs').flatten) hlen
    (fsLookup_fsInsert fs (requestFileName cfg text voice_id) ((c :: cs').flatten))
  rw [h1]
  exact ⟨rfl, by rw [h2], by rw [h2]⟩

/-- C1 witness: concrete round trip on an empty cache. -/
theorem C1_witness :
    (generate_tts_audio cfgW (.chunks [[1], [2]]) [] "m1" "hi" "default").out =
      .ok { audio_url := audioUrl cfgW (requestFileName cfgW "hi" "default"), cached := false } ∧
    (generate_tts_audio cfgW (.chunks [[1], [2]])
        (generate_tts_audio cfgW (.chunks [[1], [2]]) [] "m1" "hi" "default").fs
        "m1" "hi" "default").out =
      .ok { audio_url := audioUrl cfgW (requestFileName cfgW "hi" "default"), cached := true } ∧
    (generate_tts_audio cfgW (.chunks [[1], [2]])
        (generate_tts_audio cfgW (.chunks [[1], [2]]) [] "m1" "hi" "default").fs
        "m1" "hi" "default").engineInvocations = 0 :=
  C1_round_trip cfgW [] "m1" "hi" "default" [[1], [2]] (by decide) (by decide) rfl

/-- C2 counterexample: the serialized string f"{text}:{voice_id}" is not
injective, so two distinct (text, voice) pairs — "a:b"/"c" and "a"/"b:c" —
hash to the identical cache key with certainty, not merely with negligible
collision probability. -/
theorem C2_counterexample :
    _generate_cache_key "a:b" "c" = _generate_cache_key "a" "b:c" ∧
    ("a:b", "c") ≠ (("a", "b:c") : String × String) :=
  ⟨rfl, by decide⟩

/-- C2 (amended): the cache key function is deterministic, and it depends
only on the serialization text ++ ":" ++ voice_id — so pairs whose
serializations coincide (possible when the text contains a colon) collide
with certainty, while pairs with distinct serializations differ only up to
SHA-256 collisions, as witnessed here on a concrete pair. -/
theorem C2_key_determinism :
    (∀ text voice_id : String,
      _generate_cache_key text voice_id = _generate_cache_key text voice_id) ∧
    (∀ t1 v1 t2 v2 : String, cacheString t1 v1 = cacheString t2 v2 →
      _generate_cache_key t1 v1 = _generate_cache_key t2 v2) ∧
    _generate_cache_key "a" "b" ≠ _generate_cache_key "b" "a" := by
  refine ⟨fun _ _ => rfl, fun t1 v1 t2 v2 h => ?_, by decide⟩
  unfold _generate_cache_key
  rw [h]

/-- C2 witness: the serialization hypothesis discharged on concrete input. -/
theorem C2_witness :
    cacheString "fox" "bm_fable" = cacheString "fox" "bm_fable" ∧
    _generate_cache_key "fox" "bm_fable" = _generate_cache_key "fox" "bm_fable" :=
  ⟨rfl, C2_key_determinism.2.1 "fox" "bm_fable" "fox" "bm_fable" rfl⟩

/-- C3 counterexample: the persistence step of _generate_audio_sync is a
single sf.write directly to the final cache path — its operation trace
contains a write to the final path and no rename — so it does not satisfy
the write-to-temporary-then-rename discipline, and a write interrupted after
1 of 2 bytes leaves a visible file at the key's path whose content is
neither absent nor the complete entry. -/
theorem C3_counterexample :
    ¬ specAtomicPublish (audioSyncWriteTrace (cacheFileName "k") [1, 2]) (cacheFileName "k") ∧
    fsLookup (writeInterrupted [] (cacheFileName "k") [1, 2] 1) (cacheFileName "k") = some [1] ∧
    some [1] ≠ (none : Option (List Nat)) ∧
    ([1] : List Nat) ≠ [1, 2] := by
  refine ⟨?_, rfl, by decide, by decide⟩
  intro h
  rcases h.2 with ⟨op, hop, hren⟩
  simp [audioSyncWriteTrace] at hop
  subst hop
  simp [opRenamesTo] at hren

/-- C3 (amended): the cache write is one direct write of the audio bytes to
the final cache path, with no temporary location and no rename; a write of
data interrupted after k bytes therefore leaves the truncated content
visible at the key's path (the partial file that generate_tts_audio's
failure path is there to remove). -/
theorem C3_direct_write :
    ∀ (cache_path : String) (bytes : List Nat) (fs : Fs) (k : Nat),
      audioSyncWriteTrace cache_path bytes = [FsOp.writeFile cache_path bytes] ∧
      fsLookup (writeInterrupted fs cache_path bytes k) cache_path = some (bytes.take k) :=
  fun p b fs k => ⟨rfl, fsLookup_fsInsert fs p (b.take k)⟩

/-- C5: on a cache miss whose generation step fails in any mode — the
pipeline unavailable, the engine raising, zero chunks yielded, or sf.write
failing after a truncated write — generate_tts_audio removes any file
created under the computed key's path before propagating the error, so
afterwards no file exists at that path. -/
theorem C5_failure_cleanup (cfg : TTSSettings) (outcome : EngineOutcome) (fs : Fs)
    (mystery_id text voice_id : String)
    (hlen : text.length ≤ cfg.tts_max_text_length)
    (hmiss : fsLookup fs (requestFileName cfg text voice_id) = none)
    (hfail : isEngineFailure outcome = true) :
    (∃ e, (generate_tts_audio cfg outcome fs mystery_id text voice_id).out = .error e) ∧
    fsLookup (generate_tts_audio cfg outcome fs mystery_id text voice_id).fs
      (requestFileName cfg text voice_id) = none := by
  have hnl : ¬ (text.length > cfg.tts_max_text_length) := by omega
  cases outcome with
  | chunks cs =>
    have hcs : cs = [] := by simpa [isEngineFailure, List.isEmpty_iff] using hfail
    subst hcs
    exact ⟨⟨.generationFailed "No audio chunks generated",
        by simp [generate_tts_audio, hnl, hmiss, _generate_audio_sync]⟩,
      by simp [generate_tts_audio, hnl, hmiss, _generate_audio_sync, fsLookup_fsErase]⟩
  | engineRaise msg =>
    exact ⟨⟨.generationFailed ("Audio generation failed: " ++ msg),
        by simp [generate_tts_audio, hnl, hmiss, _generate_audio_sync]⟩,
      by simp [generate_tts_audio, hnl, hmiss, _generate_audio_sync, fsLookup_fsErase]⟩
  | pipelineUnavailable msg =>
    exact ⟨⟨.modelNotReady msg,
        by simp [generate_tts_audio, hnl, hmiss, _generate_audio_sync]⟩,
      by simp [generate_tts_audio, hnl, hmiss, _generate_audio_sync, fsLookup_fsErase]⟩
  | writeFail truncBytes msg =>
    exact ⟨⟨.generationFailed ("Audio generation failed: " ++ msg),
        by simp [generate_tts_audio, hnl, hmiss, _generate_audio_sync]⟩,
      by simp [generate_tts_audio, hnl, hmiss, _generate_audio_sync, fsLookup_fsErase]⟩

/-- C5 witness: a concrete failed request (engine raise on an empty cache)
leaves no file at the key's path. -/
theorem C5_witness :
    (∃ e, (generate_tts_audio cfgW (.engineRaise "cuda out of memory") [] "m1" "hi"
      "default").out = .error e) ∧
    fsLookup (generate_tts_audio cfgW (.engineRaise "cuda out of memory") [] "m1" "hi"
      "default").fs (requestFileName cfgW "hi" "default") = none :=
  C5_failure_cleanup cfgW (.engineRaise "cuda out of memory") [] "m1" "hi" "default"
    (by decide) rfl rfl

/-- C9: text within or at the configured maximum passes validation (no
TextTooLong error is ever produced for it), while text whose length exceeds
the maximum fails with TextTooLongError carrying both the actual and the
maximum length, the cache untouched and no engine invocation performed; the
error message reports both lengths. -/
theorem C9_length_validation (cfg : TTSSettings) (outcome : EngineOutcome) (fs : Fs)
    (mystery_id text voice_id : String) :
    (text.length ≤ cfg.tts_max_text_length →
      ∀ a m, (generate_tts_audio cfg outcome fs mystery_id text voice_id).out ≠
        .error (.textTooLong a m)) ∧
    (text.length > cfg.tts_max_text_length →
      generate_tts_audio cfg outcome fs mystery_id text voice_id =
        { fs := fs, engineInvocations := 0,
          out := .error (.textTooLong text.length cfg.tts_max_text_length) }) ∧
    textTooLongMessage text.length cfg.tts_max_text_length =
      "Text length (" ++ toString text.length ++ ") exceeds maximum allowed length (" ++
        toString cfg.tts_max_text_length ++ ")" := by
  refine ⟨fun hlen a m => ?_, fun hover => ?_, rfl⟩
  · have hnl : ¬ (text.length > cfg.tts_max_text_length) := by omega
    cases hhit : fsLookup fs (requestFileName cfg text voice_id) with
    | some d => simp [generate_hit cfg outcome fs mystery_id text voice_id d hlen hhit]
    | none =>
      cases outcome with
      | chunks cs =>
        cases cs with
        | nil => simp [generate_tts_audio, hnl, hhit, _generate_audio_sync]
        | cons c cs' => simp [generate_tts_audio, hnl, hhit, _generate_audio_sync]
      | engineRaise msg => simp [generate_tts_audio, hnl, hhit, _generate_audio_sync]
      | pipelineUnavailable msg => simp [generate_tts_audio, hnl, hhit, _generate_audio_sync]
      | writeFail truncBytes msg => simp [generate_tts_audio, hnl, hhit, _generate_audio_sync]
  · simp [generate_tts_audio, hover]

/-- C9 witness: with maximum length 2, "ab" passes validation and "abc"
fails reporting actual 3 and maximum 2, with state unchanged and no engine
invocation. -/
theorem C9_witness :
    (generate_tts_audio cfgB (.chunks [[1]]) [] "m" "ab" "default").out ≠
      .error (.textTooLong 2 2) ∧
    generate_tts_audio cfgB (.chunks [[1]]) [] "m" "abc" "default" =
      { fs := [], engineInvocations := 0, out := .error (.textTooLong 3 2) } :=
  ⟨(C9_length_validation cfgB (.chunks [[1]]) [] "m" "ab" "default").1 (by decide) 2 2,
   (C9_length_validation cfgB (.chunks [[1]]) [] "m" "abc" "default").2.1 (by decide)⟩

/-- C10: when settings.tts_enabled is false, create_tts answers every
request with audio_base_url/mystery_id.wav and cached=true, runs no cache
cleanup and no generation (empty action list), leaves the cache directory
untouched, invokes the engine zero times, and its response is independent of
the text and voice_id fields. -/
theorem C10_tts_disabled (rcfg : RouterSettings) (cfg : TTSSettings) (outcome : EngineOutcome)
    (fs : Fs) (mystery_id text voice_id : String)
    (hdis : rcfg.tts_enabled = false) :
    create_tts rcfg cfg outcome fs mystery_id text voice_id =
      { out := .ok { audio_url := rcfg.audio_base_url ++ "/" ++ mystery_id ++ ".wav",
                     cached := true },
        actions := [], fs := fs, engineInvocations := 0 } ∧
    ∀ text2 voice2, create_tts rcfg cfg outcome fs mystery_id text2 voice2 =
      create_tts rcfg cfg outcome fs mystery_id text voice_id := by
  constructor
  · simp [create_tts, hdis]
  · intro text2 voice2
    simp [create_tts, hdis]

/-- C10 witness: a disabled configuration answered from the mystery_id alone,
even for over-long text. -/
theorem C10_witness :
    create_tts rcfgW cfgB (.engineRaise "never invoked") [] "m42" "abcdefgh" "af" =
      { out := .ok { audio_url := rcfgW.audio_base_url ++ "/" ++ "m42" ++ ".wav",
                     cached := true },
        actions := [], fs := [], engineInvocations := 0 } :=
  (C10_tts_disabled rcfgW cfgB (.engineRaise "never invoked") [] "m42" "abcdefgh" "af" rfl).1

/-- C4: two concurrent first-time get_pipeline calls where the first engine
load fails: the first caller gets the propagated load error, but the queued
second caller — finding the lock free and _is_loading reset by the finally
block — starts a second engine-load invocation and can succeed, so the run
performs two load invocations and the callers observe different outcomes,
contradicting the claimed single-load/shared-outcome guarantee (the wait
branch meant to share the first outcome is unreachable because the loading
caller holds the lock for the whole load). -/
theorem C4_second_load_after_failure :
    concurrentFirstCalls cexLoads 2 =
      ([CallResult.raisedGeneration "model load failed", CallResult.ready 7], 2) ∧
    ¬ ((concurrentFirstCalls cexLoads 2).2 = 1 ∧
       ∀ x ∈ (concurrentFirstCalls cexLoads 2).1,
         ∀ y ∈ (concurrentFirstCalls cexLoads 2).1, x = y) :=
  ⟨rfl, by decide⟩

/-! ## Helper lemmas about the evictor -/

theorem sumSizes_cons (f : CacheFile) (l : List CacheFile) :
    sumSizes (f :: l) = f.size + sumSizes l := by
  simp [sumSizes]

theorem sizePass_suffix (max_size_bytes : Int) (l : List CacheFile) :
    ∀ cur : Int, ∃ pre, l = pre ++ sizePass max_size_bytes cur l := by
  induction l with
  | nil => exact fun cur => ⟨[], rfl⟩
  | cons f rest ih =>
    intro cur
    by_cases h : cur > max_size_bytes
    · obtain ⟨pre, hp⟩ := ih (cur - f.size)
      refine ⟨f :: pre, ?_⟩
      simpa [sizePass, h] using hp
    · exact ⟨[], by simp [sizePass, h]⟩

theorem sizePass_bound (max_size_bytes : Int) (l : List CacheFile) :
    ∀ cur : Int, cur = sumSizes l →
      sumSizes (sizePass max_size_bytes cur l) ≤ max_size_bytes ∨
      sizePass max_size_bytes cur l = [] := by
  induction l with
  | nil => exact fun cur _ => Or.inr rfl
  | cons f rest ih =>
    intro cur hc
    by_cases h : cur > max_size_bytes
    · have : cur - f.size = sumSizes rest := by rw [hc, sumSizes_cons]; ring
      simpa [sizePass, h] using ih (cur - f.size) this
    · left
      simp only [sizePass, h, if_false]
      omega

theorem agePass_sorted (current_time ttl_seconds : Int) (files : List CacheFile) :
    List.Sorted mtimeLE (agePass current_time ttl_seconds (get_cache_files_by_age files)) :=
  (List.sorted_insertionSort mtimeLE files).filter _

/-! ## Eviction claim theorems -/

/-- C6: in the age pass of cleanup_old_cache_files, every entry whose age
current_time - mtime strictly exceeds the TTL is removed, and every entry
whose age is at or below the TTL is retained by that pass. -/
theorem C6_age_pass (current_time ttl_seconds : Int) (files : List CacheFile)
    (f : CacheFile) (hf : f ∈ files) :
    (current_time - f.mtime > ttl_seconds →
      f ∉ agePass current_time ttl_seconds files) ∧
    (current_time - f.mtime ≤ ttl_seconds →
      f ∈ agePass current_time ttl_seconds files) := by
  constructor
  · intro h hc
    rw [agePass, List.mem_filter] at hc
    have h2 := hc.2
    simp only [Bool.not_eq_true', decide_eq_false_iff_not, not_lt] at h2
    omega
  · intro h
    rw [agePass, List.mem_filter]
    refine ⟨hf, ?_⟩
    simp only [Bool.not_eq_true', decide_eq_false_iff_not, not_lt]
    omega

/-- C6 witness: with current time 1001 and TTL 1000 seconds, the entry of
age 1001 is removed by the age pass and the entry of age exactly 1000 (one
second younger) is retained. -/
theorem C6_witness :
    fOldW ∉ agePass 1001 1000 [fOldW, fEdgeW] ∧
    fEdgeW ∈ agePass 1001 1000 [fOldW, fEdgeW] :=
  ⟨(C6_age_pass 1001 1000 [fOldW, fEdgeW] fOldW (by decide)).1 (by decide),
   (C6_age_pass 1001 1000 [fOldW, fEdgeW] fEdgeW (by decide)).2 (by decide)⟩

/-- C7: the size pass of cleanup_old_cache_files removes a prefix of the
age-surviving entries in ascending last-modified order — every removed entry
is at least as old as every surviving one, so a newer entry is never removed
while an older one remains — and it stops exactly when the remaining
aggregate size is within the bound or no entries remain. -/
theorem C7_size_pass_oldest_first (current_time ttl_hours max_size_mb : Int)
    (files : List CacheFile) :
    (∃ removed,
        agePass current_time (ttl_hours * 3600) (get_cache_files_by_age files) =
          removed ++ cleanup_old_cache_files current_time ttl_hours max_size_mb files ∧
        ∀ r ∈ removed, ∀ s ∈ cleanup_old_cache_files current_time ttl_hours max_size_mb files,
          r.mtime ≤ s.mtime) ∧
    (sumSizes (cleanup_old_cache_files current_time ttl_hours max_size_mb files) ≤
        max_size_mb * 1024 * 1024 ∨
      cleanup_old_cache_files current_time ttl_hours max_size_mb files = []) := by
  have hcl : cleanup_old_cache_files current_time ttl_hours max_size_mb files =
      sizePass (max_size_mb * 1024 * 1024)
        (sumSizes (agePass current_time (ttl_hours * 3600) (get_cache_files_by_age files)))
        (agePass current_time (ttl_hours * 3600) (get_cache_files_by_age files)) := rfl
  rw [hcl]
  constructor
  · obtain ⟨pre, hp⟩ := sizePass_suffix (max_size_mb * 1024 * 1024)
      (agePass current_time (ttl_hours * 3600) (get_cache_files_by_age files))
      (sumSizes (agePass current_time (ttl_hours * 3600) (get_cache_files_by_age files)))
    refine ⟨pre, hp, ?_⟩
    have hsor := agePass_sorted current_time (ttl_hours * 3600) files
    rw [hp] at hsor
    exact fun r hr s hs => (List.pairwise_append.mp hsor).2.2 r hr s hs
  · exact sizePass_bound (max_size_mb * 1024 * 1024)
      (agePass current_time (ttl_hours * 3600) (get_cache_files_by_age files))
      (sumSizes (agePass current_time (ttl_hours * 3600) (get_cache_files_by_age files))) rfl

/-- C8: get_pipeline returns the pipeline immediately when it is loaded;
otherwise it fails fast with TTSModelNotReadyError — without reaching the
locked loading section — exactly when lazy loading is disabled or a previous
load attempt recorded an initialization error; when lazy loading is enabled
and an error was captured, that captured error is the one reported; and it
proceeds to the loading section exactly when the pipeline is unloaded, lazy
loading is enabled and no error was captured. -/
theorem C8_fail_fast (tts_lazy_load : Bool) (s : MState) :
    (∀ p, s.pipeline = some p → get_pipeline_pre tts_lazy_load s = .ready p) ∧
    ((get_pipeline_pre tts_lazy_load s = .notReadyLazyDisabled ∨
        ∃ e, get_pipeline_pre tts_lazy_load s = .notReadyFailed e) ↔
      (s.pipeline = none ∧ (tts_lazy_load = false ∨ s.initialization_error ≠ none))) ∧
    (∀ e, s.pipeline = none → tts_lazy_load = true → s.initialization_error = some e →
      get_pipeline_pre tts_lazy_load s = .notReadyFailed e) ∧
    (get_pipeline_pre tts_lazy_load s = .proceedToLock ↔
      (s.pipeline = none ∧ tts_lazy_load = true ∧ s.initialization_error = none)) := by
  obtain ⟨pl, ie, il⟩ := s
  cases pl <;> cases tts_lazy_load <;> cases ie <;>
    simp [get_pipeline_pre]

/-- C8 witness: a manager whose load failed reports the captured error
without loading. -/
theorem C8_witness :
    get_pipeline_pre true
        { pipeline := none, initialization_error := some "load failed", is_loading := false } =
      PreOutcome.notReadyFailed "load failed" :=
  (C8_fail_fast true
      { pipeline := none, initialization_error := some "load failed", is_loading := false
      }).2.2.1 "load failed" rfl rfl rfl
